import Mathlib

/-!
Verification of the FastAPI OAuth2/PKCE relay service (src/main.py), a
shallow embedding in Lean 4.

The service correlates three independently-timed HTTP requests — initiation
(`/generate_url`), provider callback (`/callback`), and polling retrieval
(`/get_session`) — through three in-memory Python dicts:

  * `session_store   : Dict[str, dict]`  — identity ↦ access token
  * `oauth_handlers  : Dict[str, tuple]` — twitter_state ↦ (handler, identity)
  * `state_mapping   : Dict[str, str]`   — twitter_state ↦ identity

Python dicts are embedded as association lists with in-place-overwrite
assignment (`dictSet`), key deletion (`dictErase`) and lookup (`dictGet`).
The external tweepy `OAuth2UserHandler` (PKCE generation and the network
token exchange) is the opaque OAuth Client Adapter: its `fetch_token`
method is a parameter of type `OAuth2UserHandler → String → Except String
String` (the callback URL in, either a raised-exception message or a token
out), and the `state` value that `get_authorization_url` embeds in the
authorization URL (extracted in the code with `urllib.parse`) is passed as
an `Option String` alongside the URL.  Python truthiness on optional query
parameters (`if error:` / `if not code or not twitter_state:`) is embedded
by `pyTruthy`; tokens are opaque strings whose Python falsiness is the
empty string.
-/

/-- Lookup in a Python dict embedded as an association list
(`d.get(k)` / `d[k]`). -/
def dictGet {α : Type} (k : String) : List (String × α) → Option α
  | [] => none
  | (k2, v) :: rest => if k2 = k then some v else dictGet k rest

/-- Python dict assignment `d[k] = v`: overwrite in place when the key is
present (preserving insertion order), otherwise append. -/
def dictSet {α : Type} (k : String) (v : α) : List (String × α) → List (String × α)
  | [] => [(k, v)]
  | (k2, v2) :: rest => if k2 = k then (k, v) :: rest else (k2, v2) :: dictSet k v rest

/-- Python dict deletion `del d[k]` / conditional deletion (removes the key
when present, no-op otherwise). -/
def dictErase {α : Type} (k : String) : List (String × α) → List (String × α)
  | [] => []
  | (k2, v2) :: rest => if k2 = k then dictErase k rest else (k2, v2) :: dictErase k rest

/-- Python dict membership `k in d`. -/
def dictHas {α : Type} (k : String) (d : List (String × α)) : Bool :=
  (dictGet k d).isSome

/-- Truthiness of an optional query-parameter string in Python: `None` and
the empty string are falsy. -/
def pyTruthy : Option String → Bool
  | none => false
  | some s => s ≠ ""

/-- The opaque tweepy `OAuth2UserHandler` created by `get_oauth_handler()`:
it owns the PKCE verifier internally; identified here by an opaque tag. -/
structure OAuth2UserHandler where
  hid : Nat
deriving DecidableEq, Repr

/-- Process configuration loaded from the environment at startup; the
shared secret checked by the authenticated endpoints. -/
structure Config where
  INTERNAL_API_KEY : String
deriving DecidableEq, Repr

/-- The module-level mutable state of src/main.py: the three in-memory
dicts. -/
structure ServerState where
  session_store : List (String × String)
  oauth_handlers : List (String × (OAuth2UserHandler × String))
  state_mapping : List (String × String)
deriving DecidableEq, Repr

/-- The state at process start: all three dicts empty. -/
def emptyState : ServerState := ⟨[], [], []⟩

/-- Response of `/generate_url`: a raised `HTTPException(status, detail)`
or the JSON body `{"url": ...}`. -/
inductive GenResponse where
  | httpError (status : Nat) (detail : String)
  | ok (url : String)
deriving DecidableEq, Repr

/-- Response of `/callback`: always HTTP 200, body either
`{"error": ...}` or `{"message": ...}`. -/
inductive CbResponse where
  | err (e : String)
  | msg (m : String)
deriving DecidableEq, Repr

/-- Response of `/get_session`: a raised `HTTPException`, or
`{"status": "pending"}`, or `{"status": "ready", "token": ...}`. -/
inductive SessResponse where
  | httpError (status : Nat) (detail : String)
  | pending
  | ready (token : String)
deriving DecidableEq, Repr

/-- Response of `/debug/states`: a raised `HTTPException` or the three
tables' keys/contents. -/
inductive DebugResponse where
  | httpError (status : Nat) (detail : String)
  | ok (handlers : List String) (mapping : List (String × String)) (sessions : List String)
deriving DecidableEq, Repr

/-- `GET /generate_url` (src/main.py lines 39-71).  `state` is the caller
identity, `api_key` the shared secret.  The adapter call
`get_authorization_url()` yields `authorization_url` with `twitter_state`
the `state` query parameter extracted from it by `urllib.parse`
(`None` when absent); `handler` is the fresh `OAuth2UserHandler`.  On a
truthy extracted state the handler stores
`state_mapping[twitter_state] = state` and
`oauth_handlers[twitter_state] = (handler, state)` and returns the URL;
otherwise it raises HTTP 500.  A wrong key raises HTTP 403 first. -/
def generate_auth_url (cfg : Config) (state api_key : String)
    (handler : OAuth2UserHandler) (authorization_url : String)
    (twitter_state : Option String) (st : ServerState) :
    GenResponse × ServerState :=
  if api_key ≠ cfg.INTERNAL_API_KEY then
    (.httpError 403 "Unauthorized", st)
  else if pyTruthy twitter_state then
    let ts := twitter_state.getD ""
    (.ok authorization_url,
      { st with
          state_mapping := dictSet ts state st.state_mapping,
          oauth_handlers := dictSet ts (handler, state) st.oauth_handlers })
  else
    (.httpError 500 "Failed to generate authorization URL", st)

/-- `str(KeyError(k))` in Python: the key wrapped in single quotes. -/
def keyErrorStr (k : String) : String :=
  String.mk [Char.ofNat 39] ++ k ++ String.mk [Char.ofNat 39]

/-- The success message returned by `/callback`. -/
def loginSuccessMsg : String :=
  "Login successful! You can close this window and return to the bot."

/-- The `{"error": ...}` body returned by `/callback` when the correlation
token matches no stored handler (src/main.py line 96); the message embeds
`len(oauth_handlers)`. -/
def invalidStateMsg (n : Nat) : String :=
  "Session expired or invalid state. Available states: " ++ toString n

/-- `GET /callback` (src/main.py lines 73-123).  Query parameters `code`,
`state` (the provider correlation token) and `error`; `request_url` is
`str(request.url)` handed to the exchange; `fetch` is the adapter's
`fetch_token`, raising (`.error`) or returning a token (`.ok`).
Mirrors the source: provider `error` returned as-is first; then the
missing-parameter check; then the `oauth_handlers` lookup (miss →
"Session expired or invalid state" error); on a hit the exchange runs and
the `try` block stores the token and deletes both dict entries — where
`del state_mapping[twitter_state]` raises `KeyError` if the key is absent,
caught by the `except` that re-runs the (conditional) cleanup and returns
the exception text; on exchange failure the `except` cleanup deletes both
entries and returns the exception text. -/
def callback (fetch : OAuth2UserHandler → String → Except String String)
    (code twitter_state error : Option String) (request_url : String)
    (st : ServerState) : CbResponse × ServerState :=
  if pyTruthy error then
    (.err (error.getD ""), st)
  else if ¬ pyTruthy code ∨ ¬ pyTruthy twitter_state then
    (.err "Missing code or state", st)
  else
    let ts := twitter_state.getD ""
    match dictGet ts st.oauth_handlers with
    | none => (.err (invalidStateMsg st.oauth_handlers.length), st)
    | some hd =>
      match fetch hd.1 request_url with
      | .ok access_token =>
        let ss := dictSet hd.2 access_token st.session_store
        let oh := dictErase ts st.oauth_handlers
        if dictHas ts st.state_mapping then
          (.msg loginSuccessMsg, ⟨ss, oh, dictErase ts st.state_mapping⟩)
        else
          (.err (keyErrorStr ts), ⟨ss, oh, st.state_mapping⟩)
      | .error e =>
        (.err e,
          ⟨st.session_store, dictErase ts st.oauth_handlers,
            dictErase ts st.state_mapping⟩)

/-- `GET /get_session` (src/main.py lines 125-140).  Authenticates the
shared secret (HTTP 403 on mismatch), then reads
`session_store.get(state)`: a missing or falsy token yields
`{"status": "pending"}`, otherwise `{"status": "ready", "token": ...}`.
The deletion after retrieval is commented out in the source, so the state
is never mutated. -/
def get_session (cfg : Config) (state api_key : String) (st : ServerState) :
    SessResponse × ServerState :=
  if api_key ≠ cfg.INTERNAL_API_KEY then
    (.httpError 403 "Unauthorized", st)
  else
    match dictGet state st.session_store with
    | none => (.pending, st)
    | some t => if t = "" then (.pending, st) else (.ready t, st)

/-- `GET /debug/states` (src/main.py lines 142-152): after authenticating,
returns the keys of `oauth_handlers`, the full `state_mapping` and the
keys of `session_store`. -/
def debug_states (cfg : Config) (api_key : String) (st : ServerState) :
    DebugResponse × ServerState :=
  if api_key ≠ cfg.INTERNAL_API_KEY then
    (.httpError 403 "Unauthorized", st)
  else
    (.ok (st.oauth_handlers.map Prod.fst) st.state_mapping
      (st.session_store.map Prod.fst), st)

/-- The route paths registered on the FastAPI app by the `@app.get`
decorators in src/main.py — its entire HTTP surface. -/
def routes : List String :=
  ["/", "/generate_url", "/callback", "/get_session", "/debug/states"]

/-- One incoming HTTP request, carrying the adapter-produced values the
corresponding handler consumes (fresh handler, authorization URL and
extracted state for `/generate_url`). -/
inductive Request where
  | genUrl (state api_key : String) (handler : OAuth2UserHandler)
      (authorization_url : String) (twitter_state : Option String)
  | cb (code twitter_state error : Option String) (request_url : String)
  | getSess (state api_key : String)
  | debug (api_key : String)
  | rootReq
deriving Repr

/-- The state transition performed by serving one request. -/
def stepReq (cfg : Config)
    (fetch : OAuth2UserHandler → String → Except String String)
    (r : Request) (st : ServerState) : ServerState :=
  match r with
  | .genUrl s k h u ts => (generate_auth_url cfg s k h u ts st).2
  | .cb c ts e u => (callback fetch c ts e u st).2
  | .getSess s k => (get_session cfg s k st).2
  | .debug k => (debug_states cfg k st).2
  | .rootReq => st

/-- Serving a sequence of requests from a given state. -/
def runReqs (cfg : Config)
    (fetch : OAuth2UserHandler → String → Except String String)
    (rs : List Request) (st : ServerState) : ServerState :=
  rs.foldl (fun s r => stepReq cfg fetch r s) st

/-- `oauth_handlers` and `state_mapping` hold exactly the same
correlation-token keys. -/
def tablesInSync (st : ServerState) : Prop :=
  ∀ k : String, dictHas k st.oauth_handlers = dictHas k st.state_mapping

/-- Concrete configuration used by closed witnesses and counterexamples. -/
def cfg0 : Config := ⟨"secret"⟩

/-- Adapter stub whose token exchange always succeeds with token "T1". -/
def fetchOk : OAuth2UserHandler → String → Except String String :=
  fun _ _ => .ok "T1"

/-- Adapter stub whose token exchange always raises "invalid_grant". -/
def fetchFail : OAuth2UserHandler → String → Except String String :=
  fun _ _ => .error "invalid_grant"

/-- Concrete state after one authenticated initiation for identity
"user42" whose authorization URL carries correlation token "s1". -/
def stOneInit : ServerState :=
  (generate_auth_url cfg0 "user42" "secret" ⟨1⟩ "url1" (some "s1") emptyState).2

/-- Concrete state after a second initiation for "user42", the adapter
this time issuing correlation token "s2". -/
def stTwoInit : ServerState :=
  (generate_auth_url cfg0 "user42" "secret" ⟨2⟩ "url2" (some "s2") stOneInit).2

/-- Concrete state after initiation and one successful callback for
"user42" (the adapter stub returned token "T1"). -/
def stLoggedIn : ServerState :=
  (callback fetchOk (some "c") (some "s1") none "cb" stOneInit).2

/-! ### Association-list (Python dict) lemmas -/

theorem dictGet_dictSet {α : Type} (a b : String) (v : α) (d : List (String × α)) :
    dictGet a (dictSet b v d) = if b = a then some v else dictGet a d := by
  induction d with
  | nil => simp [dictGet, dictSet]
  | cons p rest ih =>
    obtain ⟨k2, v2⟩ := p
    by_cases h1 : k2 = b
    · subst h1
      by_cases h2 : k2 = a <;> simp [dictGet, dictSet, h2]
    · by_cases h2 : k2 = a
      · subst h2
        have hb : ¬ b = k2 := fun h => h1 h.symm
        simp [dictGet, dictSet, h1, hb]
      · simp [dictGet, dictSet, h1, h2, ih]

theorem dictGet_dictErase {α : Type} (a b : String) (d : List (String × α)) :
    dictGet a (dictErase b d) = if b = a then none else dictGet a d := by
  induction d with
  | nil => simp [dictGet, dictErase]
  | cons p rest ih =>
    obtain ⟨k2, v2⟩ := p
    by_cases h1 : k2 = b
    · subst h1
      by_cases h2 : k2 = a
      · subst h2
        simp [dictGet, dictErase, ih]
      · simp [dictGet, dictErase, h2, ih]
    · by_cases h2 : k2 = a
      · subst h2
        have hb : ¬ b = k2 := fun h => h1 h.symm
        simp [dictGet, dictErase, h1, hb]
      · simp [dictGet, dictErase, h1, h2, ih]

theorem dictHas_dictSet {α : Type} (a b : String) (v : α) (d : List (String × α)) :
    dictHas a (dictSet b v d) = if b = a then true else dictHas a d := by
  simp only [dictHas, dictGet_dictSet]
  by_cases h : b = a <;> simp [h]

theorem dictHas_dictErase {α : Type} (a b : String) (d : List (String × α)) :
    dictHas a (dictErase b d) = if b = a then false else dictHas a d := by
  simp only [dictHas, dictGet_dictErase]
  by_cases h : b = a <;> simp [h]

/-! ### Branch lemmas for the callback handler -/

theorem callback_provider_error (fetch : OAuth2UserHandler → String → Except String String)
    (code twitter_state error : Option String) (request_url : String) (st : ServerState)
    (he : pyTruthy error = true) :
    callback fetch code twitter_state error request_url st = (.err (error.getD ""), st) := by
  simp [callback, he]

theorem callback_not_found (fetch : OAuth2UserHandler → String → Except String String)
    (code twitter_state error : Option String) (request_url : String) (st : ServerState)
    (he : pyTruthy error = false) (hc : pyTruthy code = true)
    (ht : pyTruthy twitter_state = true)
    (hm : dictGet (twitter_state.getD "") st.oauth_handlers = none) :
    callback fetch code twitter_state error request_url st =
      (.err (invalidStateMsg st.oauth_handlers.length), st) := by
  simp [callback, he, hc, ht, hm]

theorem callback_hit_ok (fetch : OAuth2UserHandler → String → Except String String)
    (code twitter_state error : Option String) (request_url : String) (st : ServerState)
    (hdl : OAuth2UserHandler) (user_state access_token : String)
    (he : pyTruthy error = false) (hc : pyTruthy code = true)
    (ht : pyTruthy twitter_state = true)
    (hm : dictGet (twitter_state.getD "") st.oauth_handlers = some (hdl, user_state))
    (hf : fetch hdl request_url = .ok access_token)
    (hsm : dictHas (twitter_state.getD "") st.state_mapping = true) :
    callback fetch code twitter_state error request_url st =
      (.msg loginSuccessMsg,
        ⟨dictSet user_state access_token st.session_store,
          dictErase (twitter_state.getD "") st.oauth_handlers,
          dictErase (twitter_state.getD "") st.state_mapping⟩) := by
  simp [callback, he, hc, ht, hm, hf, hsm]

theorem callback_hit_ok_keyerror (fetch : OAuth2UserHandler → String → Except String String)
    (code twitter_state error : Option String) (request_url : String) (st : ServerState)
    (hdl : OAuth2UserHandler) (user_state access_token : String)
    (he : pyTruthy error = false) (hc : pyTruthy code = true)
    (ht : pyTruthy twitter_state = true)
    (hm : dictGet (twitter_state.getD "") st.oauth_handlers = some (hdl, user_state))
    (hf : fetch hdl request_url = .ok access_token)
    (hsm : dictHas (twitter_state.getD "") st.state_mapping = false) :
    callback fetch code twitter_state error request_url st =
      (.err (keyErrorStr (twitter_state.getD "")),
        ⟨dictSet user_state access_token st.session_store,
          dictErase (twitter_state.getD "") st.oauth_handlers,
          st.state_mapping⟩) := by
  simp [callback, he, hc, ht, hm, hf, hsm]

theorem callback_hit_exchange_failure
    (fetch : OAuth2UserHandler → String → Except String String)
    (code twitter_state error : Option String) (request_url : String) (st : ServerState)
    (hdl : OAuth2UserHandler) (user_state e : String)
    (he : pyTruthy error = false) (hc : pyTruthy code = true)
    (ht : pyTruthy twitter_state = true)
    (hm : dictGet (twitter_state.getD "") st.oauth_handlers = some (hdl, user_state))
    (hf : fetch hdl request_url = .error e) :
    callback fetch code twitter_state error request_url st =
      (.err e,
        ⟨st.session_store,
          dictErase (twitter_state.getD "") st.oauth_handlers,
          dictErase (twitter_state.getD "") st.state_mapping⟩) := by
  simp [callback, he, hc, ht, hm, hf]

/-! ### The key-set synchronisation invariant between the two
correlation-token tables -/

theorem tablesInSync_stepReq (cfg : Config)
    (fetch : OAuth2UserHandler → String → Except String String)
    (r : Request) (st : ServerState) (h : tablesInSync st) :
    tablesInSync (stepReq cfg fetch r st) := by
  cases r with
  | rootReq => exact h
  | getSess s k =>
    simp only [stepReq, get_session]
    split
    · exact h
    · split <;> try exact h
      split <;> exact h
  | debug k =>
    simp only [stepReq, debug_states]
    split <;> exact h
  | genUrl s k hdl u ts =>
    simp only [stepReq, generate_auth_url]
    split
    · exact h
    · split
      · intro a
        simp only [dictHas_dictSet]
        by_cases ha : ts.getD "" = a <;> simp [ha, h a]
      · exact h
  | cb c ts e u =>
    simp only [stepReq, callback]
    split
    · exact h
    · split
      · exact h
      · rcases hm : dictGet (ts.getD "") st.oauth_handlers with _ | hd
        · simp only [hm]
          exact h
        · simp only [hm]
          rcases hf : fetch hd.1 u with e2 | tok
        
          · simp only [hf]
            intro a
            simp only [dictHas_dictErase]
            by_cases ha : ts.getD "" = a <;> simp [ha, h a]
          · simp only [hf]
            rcases hsm : dictHas (ts.getD "") st.state_mapping with _ | _
            · exfalso
              have h1 : dictHas (ts.getD "") st.oauth_handlers = true := by
                simp [dictHas, hm]
              rw [h (ts.getD "")] at h1
              rw [hsm] at h1
              exact Bool.false_ne_true h1
            · simp only [hsm, if_true]
              intro a
              simp only [dictHas_dictErase]
              by_cases ha : ts.getD "" = a <;> simp [ha, h a]

theorem tablesInSync_runReqs (cfg : Config)
    (fetch : OAuth2UserHandler → String → Except String String)
    (rs : List Request) (st : ServerState) (h : tablesInSync st) :
    tablesInSync (runReqs cfg fetch rs st) := by
  induction rs generalizing st with
  | nil => exact h
  | cons r rest ih =>
    exact ih (stepReq cfg fetch r st) (tablesInSync_stepReq cfg fetch r st h)

/-- `get_session` never mutates the server state (the deletion after
retrieval is commented out in the source). -/
theorem get_session_state_unchanged (cfg : Config) (state api_key : String)
    (st : ServerState) : (get_session cfg state api_key st).2 = st := by
  simp only [get_session]
  split
  · rfl
  · split
    · rfl
    · split <;> rfl


/-! ### Claim theorems -/

/-- C10: starting from the empty state, after any sequence of served
requests the `oauth_handlers` table and the `state_mapping` table hold
exactly the same set of correlation-token keys — every operation that
touches one of them inserts into or deletes from both together. -/
theorem C10_token_tables_keys_equal (cfg : Config)
    (fetch : OAuth2UserHandler → String → Except String String)
    (rs : List Request) (k : String) :
    dictHas k (runReqs cfg fetch rs emptyState).oauth_handlers =
      dictHas k (runReqs cfg fetch rs emptyState).state_mapping :=
  tablesInSync_runReqs cfg fetch rs emptyState (fun _ => rfl) k

/-- C5: a callback whose `state` correlation token matches no stored
PendingAuthorization returns the "Session expired or invalid state"
(NotFound) error and returns the server state unchanged — the
pending-authorization tables and the session table are exactly as
before. -/
theorem C5_unknown_token_not_found
    (fetch : OAuth2UserHandler → String → Except String String)
    (code : Option String) (ts request_url : String) (st : ServerState)
    (hcode : pyTruthy code = true) (hts : ts ≠ "")
    (hm : dictGet ts st.oauth_handlers = none) :
    callback fetch code (some ts) none request_url st =
      (.err (invalidStateMsg st.oauth_handlers.length), st) :=
  callback_not_found fetch code (some ts) none request_url st rfl hcode
    (by simp [pyTruthy, hts]) hm

theorem C5_witness :
    pyTruthy (some "c") = true ∧ ("zz" : String) ≠ "" ∧
    dictGet "zz" emptyState.oauth_handlers = none ∧
    callback fetchOk (some "c") (some "zz") none "cb" emptyState =
      (.err (invalidStateMsg emptyState.oauth_handlers.length), emptyState) :=
  ⟨by decide, by decide, by decide,
    C5_unknown_token_not_found fetchOk (some "c") "zz" "cb" emptyState
      (by decide) (by decide) (by decide)⟩

/-- C6: a callback whose token exchange fails surfaces the exchange
exception text as the error body, and the session table is exactly
unchanged — no SessionRecord is created, overwritten or deleted. -/
theorem C6_exchange_failure_sessions_unchanged
    (fetch : OAuth2UserHandler → String → Except String String)
    (code : Option String) (ts request_url : String) (st : ServerState)
    (hdl : OAuth2UserHandler) (user_state e : String)
    (hcode : pyTruthy code = true) (hts : ts ≠ "")
    (hm : dictGet ts st.oauth_handlers = some (hdl, user_state))
    (hf : fetch hdl request_url = .error e) :
    (callback fetch code (some ts) none request_url st).1 = .err e ∧
    (callback fetch code (some ts) none request_url st).2.session_store =
      st.session_store := by
  rw [callback_hit_exchange_failure fetch code (some ts) none request_url st hdl
    user_state e rfl hcode (by simp [pyTruthy, hts]) hm hf]
  exact ⟨rfl, rfl⟩

theorem C6_witness :
    pyTruthy (some "c") = true ∧ ("s1" : String) ≠ "" ∧
    dictGet "s1" stOneInit.oauth_handlers = some (⟨1⟩, "user42") ∧
    fetchFail ⟨1⟩ "cb" = .error "invalid_grant" ∧
    ((callback fetchFail (some "c") (some "s1") none "cb" stOneInit).1 =
        .err "invalid_grant" ∧
      (callback fetchFail (some "c") (some "s1") none "cb" stOneInit).2.session_store =
        stOneInit.session_store) :=
  ⟨by decide, by decide, by decide, rfl,
    C6_exchange_failure_sessions_unchanged fetchFail (some "c") "s1" "cb" stOneInit
      ⟨1⟩ "user42" "invalid_grant" (by decide) (by decide) (by decide) rfl⟩

/-- C4: a callback whose correlation token matches a stored
PendingAuthorization deletes that entry from both correlation-token
tables after the exchange, whatever the exchange outcome, and a replayed
callback with the same token finds nothing — it returns the "Session
expired or invalid state" (NotFound) error. -/
theorem C4_pending_deleted_regardless
    (fetch fetch2 : OAuth2UserHandler → String → Except String String)
    (code : Option String) (ts request_url request_url2 : String) (st : ServerState)
    (hdl : OAuth2UserHandler) (user_state : String)
    (hcode : pyTruthy code = true) (hts : ts ≠ "")
    (hm : dictGet ts st.oauth_handlers = some (hdl, user_state)) :
    dictGet ts (callback fetch code (some ts) none request_url st).2.oauth_handlers =
      none ∧
    dictGet ts (callback fetch code (some ts) none request_url st).2.state_mapping =
      none ∧
    (callback fetch2 code (some ts) none request_url2
        (callback fetch code (some ts) none request_url st).2).1 =
      .err (invalidStateMsg
        (callback fetch code (some ts) none request_url st).2.oauth_handlers.length) := by
  have ht : pyTruthy (some ts) = true := by simp [pyTruthy, hts]
  rcases hf : fetch hdl request_url with e | tok
  · rw [callback_hit_exchange_failure fetch code (some ts) none request_url st hdl
      user_state e rfl hcode ht hm hf]
    refine ⟨by simp [dictGet_dictErase], by simp [dictGet_dictErase], ?_⟩
    rw [callback_not_found fetch2 code (some ts) none request_url2 _ rfl hcode ht
      (by simp [dictGet_dictErase])]
  · cases hsm : dictHas ts st.state_mapping with
    | true =>
      rw [callback_hit_ok fetch code (some ts) none request_url st hdl user_state tok
        rfl hcode ht hm hf hsm]
      refine ⟨by simp [dictGet_dictErase], by simp [dictGet_dictErase], ?_⟩
      rw [callback_not_found fetch2 code (some ts) none request_url2 _ rfl hcode ht
        (by simp [dictGet_dictErase])]
    | false =>
      rw [callback_hit_ok_keyerror fetch code (some ts) none request_url st hdl
        user_state tok rfl hcode ht hm hf hsm]
      have hnone : dictGet ts st.state_mapping = none := by
        rcases h2 : dictGet ts st.state_mapping with _ | v
        · rfl
        · rw [dictHas, h2] at hsm
          simp at hsm
      refine ⟨by simp [dictGet_dictErase], hnone, ?_⟩
      rw [callback_not_found fetch2 code (some ts) none request_url2 _ rfl hcode ht
        (by simp [dictGet_dictErase])]

theorem C4_witness :
    pyTruthy (some "c") = true ∧ ("s1" : String) ≠ "" ∧
    dictGet "s1" stOneInit.oauth_handlers = some (⟨1⟩, "user42") ∧
    (dictGet "s1"
        (callback fetchOk (some "c") (some "s1") none "cb" stOneInit).2.oauth_handlers =
        none ∧
      dictGet "s1"
        (callback fetchOk (some "c") (some "s1") none "cb" stOneInit).2.state_mapping =
        none ∧
      (callback fetchOk (some "c") (some "s1") none "cb2"
          (callback fetchOk (some "c") (some "s1") none "cb" stOneInit).2).1 =
        .err (invalidStateMsg
          (callback fetchOk (some "c") (some "s1") none "cb"
            stOneInit).2.oauth_handlers.length)) :=
  ⟨by decide, by decide, by decide,
    C4_pending_deleted_regardless fetchOk fetchOk (some "c") "s1" "cb" "cb2" stOneInit
      ⟨1⟩ "user42" (by decide) (by decide) (by decide)⟩

/-- C8: an authenticated initiation for an identity whose authorization
URL carries correlation token `ts`, followed by a well-formed callback
presenting `ts` whose token exchange succeeds with (truthy) token `tok`,
followed by an authenticated get_session for that identity, returns
Ready with exactly the token the adapter's exchange produced. -/
theorem C8_happy_path_exact_token (cfg : Config)
    (fetch : OAuth2UserHandler → String → Except String String)
    (identity url request_url : String) (hdl : OAuth2UserHandler)
    (ts code tok : String) (st : ServerState)
    (hts : ts ≠ "") (hcode : code ≠ "")
    (hf : fetch hdl request_url = .ok tok) (htok : tok ≠ "") :
    (get_session cfg identity cfg.INTERNAL_API_KEY
      (callback fetch (some code) (some ts) none request_url
        (generate_auth_url cfg identity cfg.INTERNAL_API_KEY hdl url (some ts)
          st).2).2).1 = .ready tok := by
  have hgen : (generate_auth_url cfg identity cfg.INTERNAL_API_KEY hdl url (some ts)
      st).2 =
      ⟨st.session_store, dictSet ts (hdl, identity) st.oauth_handlers,
        dictSet ts identity st.state_mapping⟩ := by
    simp [generate_auth_url, pyTruthy, hts]
  rw [hgen]
  rw [callback_hit_ok fetch (some code) (some ts) none request_url _ hdl identity tok
    rfl (by simp [pyTruthy, hcode]) (by simp [pyTruthy, hts])
    (by simp [dictGet_dictSet]) hf (by simp [dictHas_dictSet])]
  simp [get_session, dictGet_dictSet, htok]

theorem C8_witness :
    ("s1" : String) ≠ "" ∧ ("c" : String) ≠ "" ∧
    fetchOk ⟨1⟩ "cb" = .ok "T1" ∧ ("T1" : String) ≠ "" ∧
    (get_session cfg0 "user42" cfg0.INTERNAL_API_KEY
      (callback fetchOk (some "c") (some "s1") none "cb"
        (generate_auth_url cfg0 "user42" cfg0.INTERNAL_API_KEY ⟨1⟩ "url1" (some "s1")
          emptyState).2).2).1 = .ready "T1" :=
  ⟨by decide, by decide, rfl, by decide,
    C8_happy_path_exact_token cfg0 fetchOk "user42" "url1" "cb" ⟨1⟩ "s1" "c" "T1"
      emptyState (by decide) (by decide) rfl (by decide)⟩

/-- C9: every api_key-checked endpoint (/generate_url, /get_session and
the diagnostic /debug/states) rejects a request whose api_key differs
from the configured shared secret with HTTP 403 Unauthorized, and the
server state is returned exactly as it was — neither table is read into
the response nor written. -/
theorem C9_wrong_key_rejected_without_mutation (cfg : Config)
    (api_key identity url : String) (hdl : OAuth2UserHandler)
    (twitter_state : Option String) (st : ServerState)
    (h : api_key ≠ cfg.INTERNAL_API_KEY) :
    generate_auth_url cfg identity api_key hdl url twitter_state st =
      (.httpError 403 "Unauthorized", st) ∧
    get_session cfg identity api_key st = (.httpError 403 "Unauthorized", st) ∧
    debug_states cfg api_key st = (.httpError 403 "Unauthorized", st) :=
  ⟨by simp [generate_auth_url, h], by simp [get_session, h],
    by simp [debug_states, h]⟩

theorem C9_witness :
    ("wrong" : String) ≠ cfg0.INTERNAL_API_KEY ∧
    (generate_auth_url cfg0 "user42" "wrong" ⟨1⟩ "url1" (some "s1") stOneInit =
        (.httpError 403 "Unauthorized", stOneInit) ∧
      get_session cfg0 "user42" "wrong" stOneInit =
        (.httpError 403 "Unauthorized", stOneInit) ∧
      debug_states cfg0 "wrong" stOneInit =
        (.httpError 403 "Unauthorized", stOneInit)) :=
  ⟨by decide,
    C9_wrong_key_rejected_without_mutation cfg0 "wrong" "user42" "url1" ⟨1⟩
      (some "s1") stOneInit (by decide)⟩

/-- C1 is false of the code: after two sequential authenticated
initiations for "user42" (correlation tokens "s1" then "s2"), the first
token still maps to its PendingAuthorization, and a callback presenting
"s1" does not return the NotFound ("Session expired or invalid state")
error — it completes the exchange and reports a successful login. -/
theorem C1_counterexample :
    dictGet "s1" stTwoInit.oauth_handlers = some (⟨1⟩, "user42") ∧
    (callback fetchOk (some "c") (some "s1") none "cb" stTwoInit).1 =
      .msg loginSuccessMsg ∧
    (callback fetchOk (some "c") (some "s1") none "cb" stTwoInit).1 ≠
      .err (invalidStateMsg stTwoInit.oauth_handlers.length) :=
  ⟨by decide, by decide, by decide⟩

/-- C1 amended: re-initiation does not invalidate the prior correlation
token.  After two sequential authenticated initiations for the same
identity with distinct adapter-issued correlation tokens, both tokens map
to PendingAuthorizations for that identity in the handler table — the
lookup that decides NotFound still finds the first token, so two
correlation tokens are simultaneously valid for one identity. -/
theorem C1_amended_prior_token_stays_valid (cfg : Config)
    (identity u1 u2 : String) (h1 h2 : OAuth2UserHandler) (ts1 ts2 : String)
    (st : ServerState) (hne : ts1 ≠ ts2) (hts1 : ts1 ≠ "") (hts2 : ts2 ≠ "") :
    dictGet ts1 ((generate_auth_url cfg identity cfg.INTERNAL_API_KEY h2 u2 (some ts2)
        (generate_auth_url cfg identity cfg.INTERNAL_API_KEY h1 u1 (some ts1)
          st).2).2).oauth_handlers = some (h1, identity) ∧
    dictGet ts2 ((generate_auth_url cfg identity cfg.INTERNAL_API_KEY h2 u2 (some ts2)
        (generate_auth_url cfg identity cfg.INTERNAL_API_KEY h1 u1 (some ts1)
          st).2).2).oauth_handlers = some (h2, identity) := by
  have hne2 : ts2 ≠ ts1 := Ne.symm hne
  constructor <;>
    simp [generate_auth_url, pyTruthy, hts1, hts2, dictGet_dictSet, hne2]

theorem C1_amended_witness :
    ("s1" : String) ≠ "s2" ∧ ("s1" : String) ≠ "" ∧ ("s2" : String) ≠ "" ∧
    (dictGet "s1" ((generate_auth_url cfg0 "user42" cfg0.INTERNAL_API_KEY ⟨2⟩ "url2"
        (some "s2")
        (generate_auth_url cfg0 "user42" cfg0.INTERNAL_API_KEY ⟨1⟩ "url1" (some "s1")
          emptyState).2).2).oauth_handlers = some (⟨1⟩, "user42") ∧
      dictGet "s2" ((generate_auth_url cfg0 "user42" cfg0.INTERNAL_API_KEY ⟨2⟩ "url2"
        (some "s2")
        (generate_auth_url cfg0 "user42" cfg0.INTERNAL_API_KEY ⟨1⟩ "url1" (some "s1")
          emptyState).2).2).oauth_handlers = some (⟨2⟩, "user42")) :=
  ⟨by decide, by decide, by decide,
    C1_amended_prior_token_stays_valid cfg0 "user42" "url1" "url2" ⟨1⟩ ⟨2⟩ "s1" "s2"
      emptyState (by decide) (by decide) (by decide)⟩

/-- C2 is false of the code: after one successful callback for "user42",
the first authenticated get_session returns Ready with "T1" but the
record survives, and a second identical call returns Ready "T1" again —
not Pending. -/
theorem C2_counterexample :
    (get_session cfg0 "user42" "secret" stLoggedIn).1 = .ready "T1" ∧
    (get_session cfg0 "user42" "secret"
        (get_session cfg0 "user42" "secret" stLoggedIn).2).1 = .ready "T1" ∧
    (get_session cfg0 "user42" "secret"
        (get_session cfg0 "user42" "secret" stLoggedIn).2).1 ≠ .pending :=
  ⟨by decide, by decide, by decide⟩

/-- C2 amended: get_session is a non-consuming read.  An authenticated
get_session for an identity holding a (truthy) stored token returns Ready
with that token and leaves the server state unchanged — the deletion
after retrieval is commented out in the source — so a second identical
call returns Ready with the same token again rather than Pending. -/
theorem C2_amended_nonconsuming_read (cfg : Config) (identity : String)
    (st : ServerState) (tok : String)
    (hm : dictGet identity st.session_store = some tok) (htok : tok ≠ "") :
    get_session cfg identity cfg.INTERNAL_API_KEY st = (.ready tok, st) ∧
    (get_session cfg identity cfg.INTERNAL_API_KEY
        (get_session cfg identity cfg.INTERNAL_API_KEY st).2).1 = .ready tok := by
  have hone : get_session cfg identity cfg.INTERNAL_API_KEY st = (.ready tok, st) := by
    simp [get_session, hm, htok]
  refine ⟨hone, ?_⟩
  rw [get_session_state_unchanged, hone]

theorem C2_amended_witness :
    dictGet "user42" stLoggedIn.session_store = some "T1" ∧ ("T1" : String) ≠ "" ∧
    (get_session cfg0 "user42" cfg0.INTERNAL_API_KEY stLoggedIn =
        (.ready "T1", stLoggedIn) ∧
      (get_session cfg0 "user42" cfg0.INTERNAL_API_KEY
          (get_session cfg0 "user42" cfg0.INTERNAL_API_KEY stLoggedIn).2).1 =
        .ready "T1") :=
  ⟨by decide, by decide,
    C2_amended_nonconsuming_read cfg0 "user42" stLoggedIn "T1" (by decide) (by decide)⟩

/-- C3 is false of the code: a callback carrying error=access_denied
together with the valid correlation token "s1" returns the error but
deletes nothing — the whole server state, including the
PendingAuthorization stored under "s1", survives. -/
theorem C3_counterexample :
    (callback fetchOk (some "c") (some "s1") (some "access_denied") "cb"
        stOneInit).1 = .err "access_denied" ∧
    (callback fetchOk (some "c") (some "s1") (some "access_denied") "cb"
        stOneInit).2 = stOneInit ∧
    dictGet "s1" (callback fetchOk (some "c") (some "s1") (some "access_denied") "cb"
        stOneInit).2.oauth_handlers = some (⟨1⟩, "user42") :=
  ⟨by decide, by decide, by decide⟩

/-- C3 amended: when the callback carries a (truthy) `error` query
parameter the handler returns that error to the caller and the server
state is completely unchanged — in particular any PendingAuthorization
stored under the supplied correlation token survives, it is not
deleted. -/
theorem C3_amended_error_leaves_pending
    (fetch : OAuth2UserHandler → String → Except String String)
    (code twitter_state : Option String) (e request_url : String)
    (st : ServerState) (he : e ≠ "") :
    callback fetch code twitter_state (some e) request_url st = (.err e, st) :=
  callback_provider_error fetch code twitter_state (some e) request_url st
    (by simp [pyTruthy, he])

theorem C3_amended_witness :
    ("access_denied" : String) ≠ "" ∧
    callback fetchOk (some "c") (some "s1") (some "access_denied") "cb" stOneInit =
      (.err "access_denied", stOneInit) :=
  ⟨by decide,
    C3_amended_error_leaves_pending fetchOk (some "c") (some "s1") "access_denied"
      "cb" stOneInit (by decide)⟩

/-- C7 is false of the code: the FastAPI app registers no /delete_session
route — the service exposes no session-deletion operation. -/
theorem C7_counterexample : "/delete_session" ∉ routes := by decide

/-- C7 amended: the service exposes no delete_session operation — its
registered HTTP surface is exactly /, /generate_url, /callback,
/get_session and /debug/states — and no served request ever removes a
stored SessionRecord: a session key present before any request is still
present afterwards (sessions are only added or overwritten, never
deleted). -/
theorem C7_amended_no_session_deletion (cfg : Config)
    (fetch : OAuth2UserHandler → String → Except String String)
    (r : Request) (st : ServerState) (k : String)
    (h : dictHas k st.session_store = true) :
    "/delete_session" ∉ routes ∧
    dictHas k (stepReq cfg fetch r st).session_store = true := by
  refine ⟨by decide, ?_⟩
  cases r with
  | rootReq => exact h
  | getSess s key =>
    rw [stepReq, get_session_state_unchanged]
    exact h
  | debug key =>
    simp only [stepReq, debug_states]
    split <;> exact h
  | genUrl s key hdl u ts =>
    simp only [stepReq, generate_auth_url]
    split
    · exact h
    · split
      · exact h
      · exact h
  | cb c ts e u =>
    simp only [stepReq, callback]
    split
    · exact h
    · split
      · exact h
      · rcases hm : dictGet (ts.getD "") st.oauth_handlers with _ | hd
        · simp only [hm]
          exact h
        · simp only [hm]
          rcases hf : fetch hd.1 u with e2 | tok
          · simp only [hf]
            exact h
          · simp only [hf]
            split <;>
              · simp only [dictHas_dictSet]
                by_cases hk : hd.2 = k <;> simp [hk, h]

theorem C7_amended_witness :
    dictHas "user42" stLoggedIn.session_store = true ∧
    ("/delete_session" ∉ routes ∧
      dictHas "user42"
        (stepReq cfg0 fetchOk (.getSess "user42" "secret")
          stLoggedIn).session_store = true) :=
  ⟨by decide,
    C7_amended_no_session_deletion cfg0 fetchOk (.getSess "user42" "secret")
      stLoggedIn "user42" (by decide)⟩
